import Mathlib

/-!
Verification of the date-recalculation and property-projection engine of the
notion-time-blocks repository (`src/scheduled-mode.ts`).

Datetimes are modelled as naive local-time instants: an `Int` counting
milliseconds from an arbitrary epoch midnight.  `moment.startOf('day')`
becomes truncation to a multiple of `msPerDay`, `moment.diff(_, 'days')`
on midnight-aligned values becomes exact integer division, and the
`hour/minute/seconds/milliseconds` accessors become the usual div/mod
decomposition of the time of day.  Daylight-saving transitions are outside
the model (the source relies on the local system offset via moment).

Invalid moments (absent or unparseable date strings, whose invalidity
propagates through moment arithmetic and serialises as `null`) are
modelled as `none : Option Int`.
-/

namespace NotionTimeBlocks

def msPerDay : Int := 86400000

def msPerHour : Int := 3600000

def msPerMinute : Int := 60000

def msPerSecond : Int := 1000

/-- `moment.startOf('day')`: truncate an instant to its local midnight. -/
def startOfDay (t : Int) : Int := t - t % msPerDay

/-- Milliseconds elapsed since the instant's local midnight. -/
def msOfDay (t : Int) : Int := t % msPerDay

/-- `moment.hour()`. -/
def hourOf (t : Int) : Int := msOfDay t / msPerHour

/-- `moment.minute()`. -/
def minuteOf (t : Int) : Int := msOfDay t % msPerHour / msPerMinute

/-- `moment.seconds()`. -/
def secondOf (t : Int) : Int := msOfDay t % msPerMinute / msPerSecond

/-- `moment.milliseconds()`. -/
def millisecondOf (t : Int) : Int := msOfDay t % msPerSecond

/--
`combineDateTimeWithReference` (scheduled-mode.ts:374-409): truncate the
template instant, the reference and the target to their days, compute the
signed day offset of the template day from the reference day, and rebuild
the result on `targetDay + dayOffset` days with the template's
hour/minute/second/millisecond.  Both operands of the day difference are
midnight-aligned, so moment's truncating `diff(_, 'days')` is the exact
integer division below.
-/
def combineDateTimeWithReference (templateDate targetDate referenceDate : Int) : Int :=
  let templateDay := startOfDay templateDate
  let refDay := startOfDay referenceDate
  let targetDay := startOfDay targetDate
  let dayOffset := (templateDay - refDay) / msPerDay
  targetDay + dayOffset * msPerDay
    + hourOf templateDate * msPerHour
    + minuteOf templateDate * msPerMinute
    + secondOf templateDate * msPerSecond
    + millisecondOf templateDate

/-- A select / multi-select / status option as retrieved from the source store
(`{ id, name, color }`).  Options freshly created for a schema update carry an
empty `id`. -/
structure SelectOption where
  id : String
  name : String
  color : String
deriving DecidableEq, Repr

/-- A user object carried by a `people` property; projection keeps only `id`. -/
structure UserRef where
  id : String
  name : String
deriving DecidableEq, Repr

/-- A file carried by a `files` property: externally hosted (name + url) or
natively uploaded (passed through unchanged by the projection). -/
inductive FileRef
  | external (name : String) (url : String)
  | uploaded (name : String) (uploadData : String)
deriving DecidableEq, Repr

/-- The parsed payload of a `date` property: optional start and end instants.
`none` stands for an absent (`null`) or unparseable bound, i.e. an invalid
moment, whose invalidity propagates through the recalculation and serialises
back to `null`. -/
structure DateValue where
  start : Option Int
  end_ : Option Int
deriving DecidableEq, Repr

/-- A template property value, one constructor per `value.type` handled by
`updatePropertiesForDate` (scheduled-mode.ts:99-240), plus the read-only
types its trailing comment lists as deliberately skipped. -/
inductive PropValue
  | date (date : Option DateValue)
  | title (title : List String)
  | rich_text (rich_text : List String)
  | number (number : Option Int)
  | select (select : Option SelectOption)
  | multi_select (multi_select : List SelectOption)
  | checkbox (checkbox : Option Bool)
  | url (url : Option String)
  | email (email : Option String)
  | phone_number (phone_number : Option String)
  | relation (relation : List String)
  | people (people : List UserRef)
  | files (files : List FileRef)
  | status (status : Option SelectOption)
  | formula
  | rollup
  | created_time
  | created_by
  | last_edited_time
  | last_edited_by
deriving DecidableEq, Repr

/-- The `date` payload sent to the destination store: recalculated bounds
(`none` serialises as `null`) and the guessed IANA timezone label. -/
structure WriteDate where
  start : Option Int
  end_ : Option Int
  time_zone : String
deriving DecidableEq, Repr

/-- A write-ready property value: only the value portion of each property,
with identifiers and colours stripped. -/
inductive WriteValue
  | date (date : WriteDate)
  | title (title : List String)
  | rich_text (rich_text : List String)
  | number (number : Option Int)
  | select (select : Option String)
  | multi_select (multi_select : List String)
  | checkbox (checkbox : Bool)
  | url (url : Option String)
  | email (email : Option String)
  | phone_number (phone_number : Option String)
  | relation (relation : List String)
  | people (people : List String)
  | files (files : List FileRef)
  | status (status : Option String)
deriving DecidableEq, Repr

/-- A template record: display title plus its property map (association list
in object-iteration order).  A `none` value models a property whose value is
null or not an object, skipped by the projection's leading guard. -/
structure Template where
  title : String
  properties : List (String × Option PropValue)
deriving DecidableEq, Repr

/-- `value.select?.name ? { name: ... } : null`: keep only the option name,
and only when it is truthy (non-empty). -/
def selectName (s : Option SelectOption) : Option String :=
  match s with
  | some o => if o.name = "" then none else some o.name
  | none => none

/-- `newStart.isSameOrAfter(newEnd)`: false whenever either moment is
invalid, otherwise the instant comparison. -/
def isSameOrAfter (a b : Option Int) : Bool :=
  match a, b with
  | some x, some y => y ≤ x
  | _, _ => false

/-- First warning line logged when a recalculated range fails `start < end`. -/
def invalidRangeWarning (key : String) : String :=
  "Warning: Invalid date range detected for property \"" ++ key ++ "\""

/-- Projection of a `files` entry: external files keep name + external url,
uploaded files are passed through unchanged. -/
def projectFile : FileRef → FileRef
  | .external name url => .external name url
  | f => f

/-- One iteration of the `updatePropertiesForDate` loop body: the write-ready
entry produced for a property (or `none` when the property is skipped), and
the warnings logged for it. -/
def updateEntry (key : String) (pv : PropValue) (targetDate referenceDate : Int)
    (tz : String) : Option (String × WriteValue) × List String :=
  match pv with
  | .date none => (none, [])
  | .date (some dv) =>
    let newStart := dv.start.map (fun s => combineDateTimeWithReference s targetDate referenceDate)
    let newEnd := dv.end_.map (fun e => combineDateTimeWithReference e targetDate referenceDate)
    if isSameOrAfter newStart newEnd then
      (none, [invalidRangeWarning key])
    else
      (some (key, .date ⟨newStart, newEnd, tz⟩), [])
  | .title ts => (some (key, .title ts), [])
  | .rich_text ts => (some (key, .rich_text ts), [])
  | .number n => (some (key, .number n), [])
  | .select s => (some (key, .select (selectName s)), [])
  | .multi_select opts => (some (key, .multi_select (opts.map (fun o => o.name))), [])
  | .checkbox b => (some (key, .checkbox (b.getD false)), [])
  | .url u => (some (key, .url u), [])
  | .email e => (some (key, .email e), [])
  | .phone_number p => (some (key, .phone_number p), [])
  | .relation ids => (some (key, .relation ids), [])
  | .people ps => (some (key, .people (ps.map (fun p => p.id))), [])
  | .files fs => (some (key, .files (fs.map projectFile)), [])
  | .status s => (some (key, .status (selectName s)), [])
  | .formula => (none, [])
  | .rollup => (none, [])
  | .created_time => (none, [])
  | .created_by => (none, [])
  | .last_edited_time => (none, [])
  | .last_edited_by => (none, [])

/-- `updatePropertiesForDate` (scheduled-mode.ts:99-240): project every
property for the target date, returning the write-ready record (in property
order) together with the warnings logged for dropped date ranges. -/
def updatePropertiesForDate (properties : List (String × Option PropValue))
    (targetDate referenceDate : Int) (tz : String) :
    List (String × WriteValue) × List String :=
  match properties with
  | [] => ([], [])
  | (_, none) :: rest => updatePropertiesForDate rest targetDate referenceDate tz
  | (key, some pv) :: rest =>
    let r := updatePropertiesForDate rest targetDate referenceDate tz
    let ew := updateEntry key pv targetDate referenceDate tz
    ((match ew.1 with | some kv => kv :: r.1 | none => r.1), ew.2 ++ r.2)

/-- Read-only / computed property types, skipped by the projection
(scheduled-mode.ts:235-236). -/
def isReadOnly : PropValue → Bool
  | .formula => true
  | .rollup => true
  | .created_time => true
  | .created_by => true
  | .last_edited_time => true
  | .last_edited_by => true
  | _ => false

/-- The strict-`isBefore` minimum update used by `findReferenceDate`. -/
def updEarliest (earliest : Option Int) (d : Int) : Option Int :=
  match earliest with
  | none => some d
  | some e => if d < e then some d else some e

/-- Inner loop of `findReferenceDate`: fold the tracked earliest instant over
one template's properties, considering start then end of each date value. -/
def scanPropsForEarliest (acc : Option Int) :
    List (String × Option PropValue) → Option Int
  | [] => acc
  | (_, v) :: rest =>
    match v with
    | some (.date (some dv)) =>
      let acc1 := match dv.start with
        | some s => updEarliest acc s
        | none => acc
      let acc2 := match dv.end_ with
        | some e => updEarliest acc1 e
        | none => acc1
      scanPropsForEarliest acc2 rest
    | _ => scanPropsForEarliest acc rest

/-- Outer loop of `findReferenceDate` over the template collection. -/
def scanTemplatesForEarliest (acc : Option Int) : List Template → Option Int
  | [] => acc
  | t :: rest => scanTemplatesForEarliest (scanPropsForEarliest acc t.properties) rest

/-- `findReferenceDate` (scheduled-mode.ts:280-305): the earliest instant
among all date-range starts and ends, or the start of today if none exist.
`today` is the current instant (`moment()`). -/
def findReferenceDate (templates : List Template) (today : Int) : Int :=
  match scanTemplatesForEarliest none templates with
  | some earliest => earliest
  | none => startOfDay today

/-- All date-range start and end instants of one property list, in property
order (start before end).  Specification-side helper used to characterise
`findReferenceDate`. -/
def collectDateInstantsProps : List (String × Option PropValue) → List Int
  | [] => []
  | (_, v) :: rest =>
    match v with
    | some (.date (some dv)) =>
      (match dv.start with | some s => [s] | none => [])
        ++ (match dv.end_ with | some e => [e] | none => [])
        ++ collectDateInstantsProps rest
    | _ => collectDateInstantsProps rest

/-- All date-range start and end instants of a template collection. -/
def collectDateInstants : List Template → List Int
  | [] => []
  | t :: rest => collectDateInstantsProps t.properties ++ collectDateInstants rest

/-- `getTemplateStartTime` helper: the first date property carrying a start
instant, scanning the property list in order (scheduled-mode.ts:361-369). -/
def getStartFromProps : List (String × Option PropValue) → Option Int
  | [] => none
  | (_, v) :: rest =>
    match v with
    | some (.date (some dv)) =>
      match dv.start with
      | some s => some s
      | none => getStartFromProps rest
    | _ => getStartFromProps rest

/-- `getTemplateStartTime`: start instant of the first date property of the
template that has one, or `null`. -/
def getTemplateStartTime (t : Template) : Option Int :=
  getStartFromProps t.properties

/-- Non-positive half of the comparator of `sortTemplatesByStartTime` on the
two optional start keys: absent keys sort after all present keys. -/
def optLE (x y : Option Int) : Bool :=
  match x, y with
  | none, none => true
  | none, some _ => false
  | some _, none => true
  | some u, some v => decide (u ≤ v)

/-- The total preorder induced by the comparator of `sortTemplatesByStartTime`
(scheduled-mode.ts:310-321): `templateLE a b` iff the comparator returns a
non-positive number on `(a, b)` — templates without a start time sort after
all dated templates. -/
def templateLE (a b : Template) : Bool :=
  optLE (getTemplateStartTime a) (getTemplateStartTime b)

/-- `sortTemplatesByStartTime`: `[...templates].sort(comparator)` — a stable
sort by the comparator above, modelled by the stable `List.mergeSort`. -/
def sortTemplatesByStartTime (templates : List Template) : List Template :=
  templates.mergeSort templateLE

/-- All date-range start instants of one property list, in property order.
Specification-side helper for the ordering claim. -/
def collectStartInstants : List (String × Option PropValue) → List Int
  | [] => []
  | (_, v) :: rest =>
    match v with
    | some (.date (some dv)) =>
      (match dv.start with | some s => [s] | none => []) ++ collectStartInstants rest
    | _ => collectStartInstants rest

/-- Modelled from the spec: "each template's earliest date-range field start
instant", the key the specification says the orderer sorts by. -/
def specEarliestStart (t : Template) : Option Int :=
  (collectStartInstants t.properties).min?

/-- Modelled from the spec: ascending order on the specification's key, with
templates lacking any date-range start sorting last. -/
def specLE (a b : Template) : Bool :=
  optLE (specEarliestStart a) (specEarliestStart b)

/-- JavaScript `toLowerCase()` on the ASCII names this system compares. -/
def jsToLower (s : String) : String :=
  ⟨s.data.map Char.toLower⟩

/-- JavaScript `trim()`: strip leading and trailing whitespace. -/
def jsTrim (s : String) : String :=
  ⟨((s.data.dropWhile Char.isWhitespace).reverse.dropWhile Char.isWhitespace).reverse⟩

/-- Per-template loop of `filterTemplatesByDay` (scheduled-mode.ts:326-356):
the first property named "day" (case-insensitively) that is a select with a
truthy name, or a multi-select, decides the match; other properties are
scanned past. -/
def templateMatchesDay (normalizedFilter : String) :
    List (String × Option PropValue) → Bool
  | [] => false
  | (key, v) :: rest =>
    match v with
    | some (.select (some o)) =>
      if jsToLower key = "day" ∧ o.name ≠ "" then
        jsTrim (jsToLower o.name) = normalizedFilter
      else
        templateMatchesDay normalizedFilter rest
    | some (.multi_select opts) =>
      if jsToLower key = "day" then
        opts.any (fun o => jsTrim (jsToLower o.name) = normalizedFilter)
      else
        templateMatchesDay normalizedFilter rest
    | _ => templateMatchesDay normalizedFilter rest

/-- `filterTemplatesByDay`: keep the templates whose "Day" property matches
the filter value, case-insensitively and whitespace-trimmed. -/
def filterTemplatesByDay (templates : List Template) (dayFilter : String) : List Template :=
  templates.filter (fun t => templateMatchesDay (jsTrim (jsToLower dayFilter)) t.properties)

/-- Insertion into the `Set<string>` of Day values: first occurrence wins,
insertion order preserved. -/
def addDayValue (acc : List String) (name : String) : List String :=
  if name ∈ acc then acc else acc ++ [name]

/-- Inner loop of `extractDayValues` (scheduled-mode.ts:414-444) over one
template's properties. -/
def extractDayValuesFromProps (acc : List String) :
    List (String × Option PropValue) → List String
  | [] => acc
  | (key, v) :: rest =>
    match v with
    | some (.select (some o)) =>
      let acc1 := if jsToLower key = "day" ∧ o.name ≠ "" then addDayValue acc o.name else acc
      extractDayValuesFromProps acc1 rest
    | some (.multi_select opts) =>
      let acc1 :=
        if jsToLower key = "day" then
          opts.foldl (fun a o => if o.name ≠ "" then addDayValue a o.name else a) acc
        else acc
      extractDayValuesFromProps acc1 rest
    | _ => extractDayValuesFromProps acc rest

/-- Outer loop of `extractDayValues` over the template collection. -/
def extractDayValuesAux (acc : List String) : List Template → List String
  | [] => acc
  | t :: rest => extractDayValuesAux (extractDayValuesFromProps acc t.properties) rest

/-- `extractDayValues`: all distinct Day option names used by the templates,
in first-occurrence order. -/
def extractDayValues (templates : List Template) : List String :=
  extractDayValuesAux [] templates

/-- Type tag of a destination-schema property. -/
inductive SchemaPropType
  | select
  | multi_select
  | other
deriving DecidableEq, Repr

/-- A destination-schema property: its type and, for choice types, the
current option list. -/
structure SchemaProp where
  type : SchemaPropType
  options : List SelectOption
deriving DecidableEq, Repr

/-- The schema scan of `ensureDayOptionsExist` (scheduled-mode.ts:469-477):
the first property named "day" (case-insensitively) of select or
multi-select type. -/
def findDayProperty : List (String × SchemaProp) → Option (String × SchemaProp)
  | [] => none
  | (name, config) :: rest =>
    if jsToLower name = "day" ∧ (config.type = .select ∨ config.type = .multi_select) then
      some (name, config)
    else
      findDayProperty rest

/-- A remote-store request issued by the scheduled-mode run, in order. -/
inductive ApiCall
  | getDatabaseSchema
  | updateDatabaseSchema (propertyName : String) (options : List SelectOption)
  | createPage (properties : List (String × WriteValue))
deriving DecidableEq, Repr

/-- Whether a request is a record-create call. -/
def isCreatePage : ApiCall → Bool
  | .createPage _ => true
  | _ => false

/-- `ensureDayOptionsExist` (scheduled-mode.ts:450-526), as the sequence of
remote calls it issues given the destination schema it would read: nothing
when there are no Day values; otherwise the schema read, followed by a single
additive schema update when a located Day property is missing some values.
New options are appended after every existing option, with default colour. -/
def ensureDayOptionsExist (schema : List (String × SchemaProp))
    (dayValues : List String) : List ApiCall :=
  if dayValues.isEmpty then []
  else
    .getDatabaseSchema ::
      match findDayProperty schema with
      | none => []
      | some (dayPropertyName, dayProperty) =>
        let existingOptions := dayProperty.options
        let existingOptionNames := existingOptions.map (fun o => o.name)
        let missingOptions := dayValues.filter (fun v => !(v ∈ existingOptionNames))
        if missingOptions.isEmpty then []
        else
          let newOptions := missingOptions.map (fun n => SelectOption.mk "" n "default")
          [.updateDatabaseSchema dayPropertyName (existingOptions ++ newOptions)]

/-- Per-template create loop of `runScheduledMode` (scheduled-mode.ts:67-89).
`createOk i` tells whether the remote accepts the `i`-th create request; a
rejected create throws, so the loop stops there — the calls issued so far and
the outcome (`ok count` on completion, the propagated error otherwise) are
returned. -/
def createTimeBlocksLoop (templates : List Template) (targetDate referenceDate : Int)
    (tz : String) (createOk : Nat → Bool) (idx : Nat) :
    List ApiCall × Except String Nat :=
  match templates with
  | [] => ([], .ok 0)
  | t :: rest =>
    let updatedProperties := (updatePropertiesForDate t.properties targetDate referenceDate tz).1
    if createOk idx then
      let r := createTimeBlocksLoop rest targetDate referenceDate tz createOk (idx + 1)
      (.createPage updatedProperties :: r.1,
        match r.2 with
        | .ok n => .ok (n + 1)
        | .error e => .error e)
    else
      ([.createPage updatedProperties], .error "create failed")

instance : DecidableEq (Except String Nat) := fun a b =>
  match a, b with
  | .ok x, .ok y =>
    if h : x = y then .isTrue (by rw [h]) else .isFalse (by simp [h])
  | .error x, .error y =>
    if h : x = y then .isTrue (by rw [h]) else .isFalse (by simp [h])
  | .ok _, .error _ => .isFalse (by simp)
  | .error _, .ok _ => .isFalse (by simp)

/-- The observable result of a scheduled-mode run: the remote calls issued in
order, and either the count of created blocks (reported in the final summary)
or the error the run threw. -/
structure RunResult where
  calls : List ApiCall
  outcome : Except String Nat
deriving DecidableEq, Repr

/-- `runScheduledMode` (scheduled-mode.ts:12-90): reject an empty template
file; resolve the reference date over all templates; sort; optionally filter
by day (returning without any remote call when the filter empties the
collection); reconcile Day options against the destination schema; then
create one time block per surviving template, serially. -/
def runScheduledMode (templates : List Template) (targetDate today : Int)
    (dayFilter : Option String) (schema : List (String × SchemaProp))
    (tz : String) (createOk : Nat → Bool) : RunResult :=
  if templates.isEmpty then
    ⟨[], .error "No templates found. Run with --init first to create templates."⟩
  else
    let referenceDate := findReferenceDate templates today
    let sortedTemplates := sortTemplatesByStartTime templates
    let templatesToCreate :=
      match dayFilter with
      | some f => filterTemplatesByDay sortedTemplates f
      | none => sortedTemplates
    if dayFilter.isSome ∧ templatesToCreate.isEmpty then
      ⟨[], .ok 0⟩
    else
      let dayValues := extractDayValues templatesToCreate
      let ensureCalls := ensureDayOptionsExist schema dayValues
      let r := createTimeBlocksLoop templatesToCreate targetDate referenceDate tz createOk 0
      ⟨ensureCalls ++ r.1, r.2⟩

/-- Setting hour, minute, seconds and milliseconds in sequence on a midnight
reproduces exactly the source instant's milliseconds-of-day. -/
theorem time_components_sum (t : Int) :
    hourOf t * msPerHour + minuteOf t * msPerMinute + secondOf t * msPerSecond
      + millisecondOf t = msOfDay t := by
  simp only [hourOf, minuteOf, secondOf, millisecondOf, msOfDay, msPerDay, msPerHour,
    msPerMinute, msPerSecond]
  omega

/-- Closed form of the recalculation: target midnight, plus the signed
distance between the template's midnight and the reference midnight, plus
the template's time of day. -/
theorem combineDateTimeWithReference_eq (t target ref : Int) :
    combineDateTimeWithReference t target ref
      = startOfDay target + (startOfDay t - startOfDay ref) + msOfDay t := by
  simp only [combineDateTimeWithReference, startOfDay, msOfDay, hourOf, minuteOf, secondOf,
    millisecondOf, msPerDay, msPerHour, msPerMinute, msPerSecond]
  omega

/-- The projection processes properties independently: it distributes over
concatenation of the property list. -/
theorem updatePropertiesForDate_append (l₁ l₂ : List (String × Option PropValue))
    (target ref : Int) (tz : String) :
    updatePropertiesForDate (l₁ ++ l₂) target ref tz
      = ((updatePropertiesForDate l₁ target ref tz).1
            ++ (updatePropertiesForDate l₂ target ref tz).1,
         (updatePropertiesForDate l₁ target ref tz).2
            ++ (updatePropertiesForDate l₂ target ref tz).2) := by
  induction l₁ with
  | nil => simp [updatePropertiesForDate]
  | cons hd tl ih =>
    obtain ⟨key, v⟩ := hd
    cases v with
    | none => simpa [updatePropertiesForDate] using ih
    | some pv =>
      simp only [List.cons_append, updatePropertiesForDate, ih]
      cases h : (updateEntry key pv target ref tz).1 <;> simp [h, ih]

/-- A projected entry always carries the key of the property it came from. -/
theorem updateEntry_fst_key (key : String) (pv : PropValue) (target ref : Int)
    (tz : String) (kv : String × WriteValue)
    (h : (updateEntry key pv target ref tz).1 = some kv) : kv.1 = key := by
  cases pv <;> simp only [updateEntry] at h
  case date d =>
    cases d with
    | none => exact absurd h (by simp)
    | some dv =>
      simp only at h
      split at h
      · exact absurd h (by simp)
      · obtain rfl := Option.some.inj h; rfl
  all_goals first
  | (obtain rfl := Option.some.inj h; rfl)
  | exact absurd h (by simp)

/-- Read-only property types produce no entry and no warning. -/
theorem updateEntry_readonly (key : String) (pv : PropValue) (target ref : Int)
    (tz : String) (h : isReadOnly pv = true) :
    updateEntry key pv target ref tz = (none, []) := by
  cases pv <;> simp_all [isReadOnly, updateEntry]

/-- A recalculated range with start on or after end produces no entry and
one warning. -/
theorem updateEntry_invalid_range (key : String) (dv : DateValue) (target ref : Int)
    (tz : String)
    (h : isSameOrAfter (dv.start.map fun s => combineDateTimeWithReference s target ref)
        (dv.end_.map fun e => combineDateTimeWithReference e target ref) = true) :
    updateEntry key (.date (some dv)) target ref tz = (none, [invalidRangeWarning key]) := by
  simp [updateEntry, h]

/-- C1: for every template date-range field, if the field's start instant falls
on the calendar day `k` days after the collection's reference day (`k` signed,
negative allowed), then the recalculated start falls on the calendar day
`target day + k`, and its hour, minute, second and millisecond equal those of
the original start exactly. -/
theorem recalculated_start_day_and_time (t target ref k : Int)
    (h : startOfDay t = startOfDay ref + k * msPerDay) :
    startOfDay (combineDateTimeWithReference t target ref)
        = startOfDay target + k * msPerDay
      ∧ hourOf (combineDateTimeWithReference t target ref) = hourOf t
      ∧ minuteOf (combineDateTimeWithReference t target ref) = minuteOf t
      ∧ secondOf (combineDateTimeWithReference t target ref) = secondOf t
      ∧ millisecondOf (combineDateTimeWithReference t target ref) = millisecondOf t := by
  rw [combineDateTimeWithReference_eq, h]
  simp only [startOfDay, msOfDay, hourOf, minuteOf, secondOf, millisecondOf, msPerDay,
    msPerHour, msPerMinute, msPerSecond] at h ⊢
  refine ⟨by omega, by omega, by omega, by omega, by omega⟩

/-- Witness for `recalculated_start_day_and_time`: template start at day 1,
01:00 over reference day 0, retargeted to day 10. -/
theorem recalculated_start_day_and_time_example :
    startOfDay 90000000 = startOfDay 0 + 1 * msPerDay
      ∧ (startOfDay (combineDateTimeWithReference 90000000 864000000 0)
            = startOfDay 864000000 + 1 * msPerDay
          ∧ hourOf (combineDateTimeWithReference 90000000 864000000 0) = hourOf 90000000
          ∧ minuteOf (combineDateTimeWithReference 90000000 864000000 0) = minuteOf 90000000
          ∧ secondOf (combineDateTimeWithReference 90000000 864000000 0) = secondOf 90000000
          ∧ millisecondOf (combineDateTimeWithReference 90000000 864000000 0)
            = millisecondOf 90000000) :=
  ⟨by decide, recalculated_start_day_and_time 90000000 864000000 0 1 (by decide)⟩

/-- C2: recalculating the two bounds of a date range preserves the duration
`end - start` exactly, for every reference instant and target instant. -/
theorem recalculation_preserves_duration (s e target ref : Int) :
    combineDateTimeWithReference e target ref - combineDateTimeWithReference s target ref
      = e - s := by
  rw [combineDateTimeWithReference_eq, combineDateTimeWithReference_eq]
  simp only [startOfDay, msOfDay, msPerDay]
  omega

/-- C10: the recalculation depends on the reference instant only through its
calendar day; two reference instants on the same day give identical results. -/
theorem recalculation_depends_only_on_reference_day (t target r₁ r₂ : Int)
    (h : startOfDay r₁ = startOfDay r₂) :
    combineDateTimeWithReference t target r₁ = combineDateTimeWithReference t target r₂ := by
  rw [combineDateTimeWithReference_eq, combineDateTimeWithReference_eq, h]

/-- Witness for `recalculation_depends_only_on_reference_day`: reference
instants 00:00:01 and 00:00:02 of the same day. -/
theorem recalculation_depends_only_on_reference_day_example :
    startOfDay 1000 = startOfDay 2000
      ∧ combineDateTimeWithReference 5 7 1000 = combineDateTimeWithReference 5 7 2000 :=
  ⟨by decide, recalculation_depends_only_on_reference_day 5 7 1000 2000 (by decide)⟩

/-- C9: for every template and every property key whose values are all of a
read-only/computed type (formula, rollup, created/edited time or author), the
projected write-ready record contains no entry under that key. -/
theorem readonly_fields_never_projected (properties : List (String × Option PropValue))
    (target ref : Int) (tz : String) (key : String)
    (h : ∀ pv, (key, some pv) ∈ properties → isReadOnly pv = true) :
    key ∉ (updatePropertiesForDate properties target ref tz).1.map Prod.fst := by
  induction properties with
  | nil => simp [updatePropertiesForDate]
  | cons hd tl ih =>
    obtain ⟨k, v⟩ := hd
    have htl : ∀ pv, (key, some pv) ∈ tl → isReadOnly pv = true := by
      intro pv hm
      exact h pv (List.mem_cons_of_mem _ hm)
    cases v with
    | none => simpa [updatePropertiesForDate] using ih htl
    | some pv =>
      by_cases hk : k = key
      · subst hk
        have hro : isReadOnly pv = true := h pv (List.mem_cons_self _ _)
        simpa [updatePropertiesForDate, updateEntry_readonly k pv target ref tz hro]
          using ih htl
      · simp only [updatePropertiesForDate]
        cases he : (updateEntry k pv target ref tz).1 with
        | none => simpa using ih htl
        | some kv =>
          have : kv.1 = k := updateEntry_fst_key k pv target ref tz kv he
          simp only [List.map_cons, List.mem_cons, this]
          rintro (hbad | hbad)
          · exact hk hbad.symm
          · exact ih htl hbad

/-- Witness for `readonly_fields_never_projected`: a formula property is
absent from the projected record. -/
theorem readonly_fields_never_projected_example :
    "Total" ∉ (updatePropertiesForDate [("Total", some .formula)] 0 0 "UTC").1.map Prod.fst :=
  readonly_fields_never_projected [("Total", some .formula)] 0 0 "UTC" "Total"
    (by
      intro pv hm
      simp only [List.mem_singleton, Prod.mk.injEq, Option.some.injEq, true_and] at hm
      rw [hm]
      rfl)

/-- C4: a date-range field whose recalculated start is on or after its
recalculated end is omitted from the write-ready record while every other
property is projected as usual, one diagnostic is emitted for it, and the
template is still created (the create loop still issues its create-record
call, with the remaining fields, and proceeds). -/
theorem invalid_range_field_dropped_locally
    (l₁ l₂ : List (String × Option PropValue)) (key : String) (dv : DateValue)
    (target ref : Int) (tz : String) (s0 e0 : Int)
    (hs : dv.start.map (fun s => combineDateTimeWithReference s target ref) = some s0)
    (he : dv.end_.map (fun e => combineDateTimeWithReference e target ref) = some e0)
    (hle : e0 ≤ s0) :
    updatePropertiesForDate (l₁ ++ (key, some (.date (some dv))) :: l₂) target ref tz
      = ((updatePropertiesForDate l₁ target ref tz).1
            ++ (updatePropertiesForDate l₂ target ref tz).1,
         (updatePropertiesForDate l₁ target ref tz).2
            ++ invalidRangeWarning key :: (updatePropertiesForDate l₂ target ref tz).2)
    ∧ ∀ (title : String) (rest : List Template) (createOk : Nat → Bool) (idx : Nat),
        createOk idx = true →
        (createTimeBlocksLoop (⟨title, l₁ ++ (key, some (.date (some dv))) :: l₂⟩ :: rest)
            target ref tz createOk idx).1
          = .createPage ((updatePropertiesForDate l₁ target ref tz).1
                ++ (updatePropertiesForDate l₂ target ref tz).1)
              :: (createTimeBlocksLoop rest target ref tz createOk (idx + 1)).1 := by
  have hdrop : isSameOrAfter (dv.start.map fun s => combineDateTimeWithReference s target ref)
      (dv.end_.map fun e => combineDateTimeWithReference e target ref) = true := by
    rw [hs, he]
    simpa [isSameOrAfter] using hle
  have hmid : updatePropertiesForDate ((key, some (.date (some dv))) :: l₂) target ref tz
      = ((updatePropertiesForDate l₂ target ref tz).1,
         invalidRangeWarning key :: (updatePropertiesForDate l₂ target ref tz).2) := by
    simp [updatePropertiesForDate, updateEntry_invalid_range key dv target ref tz hdrop]
  have hsplit := updatePropertiesForDate_append l₁ ((key, some (.date (some dv))) :: l₂)
    target ref tz
  rw [hmid] at hsplit
  refine ⟨hsplit, ?_⟩
  intro title rest createOk idx hidx
  simp [createTimeBlocksLoop, hidx, hsplit]

/-- Witness for `invalid_range_field_dropped_locally`: an inverted 01:00 to
00:00 range is dropped, the title field survives, and the template's create
call is still issued. -/
theorem invalid_range_field_dropped_locally_example :
    (updatePropertiesForDate
        [("Name", some (.title ["x"])), ("When", some (.date (some ⟨some 3600000, some 0⟩)))]
        0 0 "UTC"
      = ([("Name", .title ["x"])], [invalidRangeWarning "When"]))
    ∧ (createTimeBlocksLoop
          [⟨"T", [("Name", some (.title ["x"])),
                  ("When", some (.date (some ⟨some 3600000, some 0⟩)))]⟩]
          0 0 "UTC" (fun _ => true) 0).1
        = [.createPage [("Name", .title ["x"])]] := by
  have H := invalid_range_field_dropped_locally [("Name", some (.title ["x"]))] []
    "When" ⟨some 3600000, some 0⟩ 0 0 "UTC" 3600000 0 (by decide) (by decide) (by decide)
  have H2 := H.2 "T" [] (fun _ => true) 0 rfl
  constructor
  · simpa [updatePropertiesForDate, updateEntry] using H.1
  · simpa [updatePropertiesForDate, updateEntry, createTimeBlocksLoop] using H2

/-- C7: a date-range field with exactly one bound present keeps the absent
bound absent in the projected field, while the present bound is recalculated;
the field is never dropped by the range validation. -/
theorem half_open_range_recalculates_present_bound
    (l₁ l₂ : List (String × Option PropValue)) (key : String) (s target ref : Int)
    (tz : String) :
    updatePropertiesForDate (l₁ ++ (key, some (.date (some ⟨some s, none⟩))) :: l₂)
        target ref tz
      = ((updatePropertiesForDate l₁ target ref tz).1
            ++ (key, .date ⟨some (combineDateTimeWithReference s target ref), none, tz⟩)
              :: (updatePropertiesForDate l₂ target ref tz).1,
         (updatePropertiesForDate l₁ target ref tz).2
            ++ (updatePropertiesForDate l₂ target ref tz).2)
    ∧ updatePropertiesForDate (l₁ ++ (key, some (.date (some ⟨none, some s⟩))) :: l₂)
        target ref tz
      = ((updatePropertiesForDate l₁ target ref tz).1
            ++ (key, .date ⟨none, some (combineDateTimeWithReference s target ref), tz⟩)
              :: (updatePropertiesForDate l₂ target ref tz).1,
         (updatePropertiesForDate l₁ target ref tz).2
            ++ (updatePropertiesForDate l₂ target ref tz).2) := by
  constructor
  · have hsplit := updatePropertiesForDate_append l₁
      ((key, some (.date (some ⟨some s, none⟩))) :: l₂) target ref tz
    rw [show updatePropertiesForDate ((key, some (.date (some ⟨some s, none⟩))) :: l₂)
          target ref tz
        = ((key, .date ⟨some (combineDateTimeWithReference s target ref), none, tz⟩)
              :: (updatePropertiesForDate l₂ target ref tz).1,
           (updatePropertiesForDate l₂ target ref tz).2) from by
        simp [updatePropertiesForDate, updateEntry, isSameOrAfter]] at hsplit
    exact hsplit
  · have hsplit := updatePropertiesForDate_append l₁
      ((key, some (.date (some ⟨none, some s⟩))) :: l₂) target ref tz
    rw [show updatePropertiesForDate ((key, some (.date (some ⟨none, some s⟩))) :: l₂)
          target ref tz
        = ((key, .date ⟨none, some (combineDateTimeWithReference s target ref), tz⟩)
              :: (updatePropertiesForDate l₂ target ref tz).1,
           (updatePropertiesForDate l₂ target ref tz).2) from by
        simp [updatePropertiesForDate, updateEntry, isSameOrAfter]] at hsplit
    exact hsplit

/-- The strict-`isBefore` update keeps the running minimum. -/
theorem updEarliest_some (a x : Int) : updEarliest (some a) x = some (min a x) := by
  show (if x < a then some x else some a) = some (min a x)
  rcases lt_or_ge x a with h | h
  · rw [if_pos h, min_eq_right (le_of_lt h)]
  · rw [if_neg (not_lt.mpr h), min_eq_left h]

/-- Folding `updEarliest` from a tracked minimum computes the minimum. -/
theorem foldl_updEarliest_some (xs : List Int) :
    ∀ a : Int, xs.foldl updEarliest (some a) = some (xs.foldl min a) := by
  induction xs with
  | nil => intro a; rfl
  | cons x xs ih =>
    intro a
    simp only [List.foldl_cons, updEarliest_some]
    exact ih (min a x)

/-- The property scan of `findReferenceDate` folds `updEarliest` over the
instants the properties carry, in order. -/
theorem scanPropsForEarliest_eq (l : List (String × Option PropValue)) :
    ∀ acc, scanPropsForEarliest acc l = (collectDateInstantsProps l).foldl updEarliest acc := by
  induction l with
  | nil => intro acc; rfl
  | cons hd tl ih =>
    intro acc
    obtain ⟨k, v⟩ := hd
    cases v with
    | none => simp [scanPropsForEarliest, collectDateInstantsProps, ih]
    | some pv =>
      cases pv
      case date d =>
        cases d with
        | none => simp [scanPropsForEarliest, collectDateInstantsProps, ih]
        | some dv =>
          cases hs : dv.start <;> cases he : dv.end_ <;>
            simp [scanPropsForEarliest, collectDateInstantsProps, hs, he,
              List.foldl_append, ih]
      all_goals simp [scanPropsForEarliest, collectDateInstantsProps, ih]

/-- The template scan of `findReferenceDate` folds `updEarliest` over all
instants of the collection, in order. -/
theorem scanTemplatesForEarliest_eq (templates : List Template) :
    ∀ acc, scanTemplatesForEarliest acc templates
      = (collectDateInstants templates).foldl updEarliest acc := by
  induction templates with
  | nil => intro acc; rfl
  | cons t rest ih =>
    intro acc
    simp only [scanTemplatesForEarliest, collectDateInstants, List.foldl_append, ih,
      scanPropsForEarliest_eq]

/-- C3 (amended): the reference-date resolver returns the minimum instant
among all date-range start and end values of the collection, with its
time-of-day intact — not truncated to midnight; only when the collection
carries no date-range value does it return today's day start.  It is a total
function, so it succeeds on every input, including the empty collection. -/
theorem findReferenceDate_eq_earliest_instant (templates : List Template) (today : Int) :
    findReferenceDate templates today
      = ((collectDateInstants templates).min?).getD (startOfDay today) := by
  have hscan := scanTemplatesForEarliest_eq templates none
  cases h : collectDateInstants templates with
  | nil =>
    unfold findReferenceDate
    rw [hscan, h]
    rfl
  | cons x xs =>
    unfold findReferenceDate
    rw [hscan, h, List.foldl_cons, show updEarliest none x = some x from rfl,
      foldl_updEarliest_some, List.min?_cons']
    rfl

/-- C3 counterexample: a collection whose single date-range start is at
10:00 of day 0.  The resolver returns the 10:00 instant itself, while the
claim says it returns that instant's calendar day truncated to midnight
(which is 0): the returned value still has a time-of-day component. -/
theorem findReferenceDate_keeps_time_of_day :
    findReferenceDate
        [⟨"Morning", [("When", some (.date (some ⟨some 36000000, none⟩)))]⟩] 0
      = 36000000
    ∧ startOfDay 36000000 = 0
    ∧ msOfDay 36000000 ≠ 0 := by
  refine ⟨by decide, by decide, by decide⟩

/-- `optLE` is transitive. -/
theorem optLE_trans (x y z : Option Int) (hxy : optLE x y = true)
    (hyz : optLE y z = true) : optLE x z = true := by
  cases x <;> cases y <;> cases z <;> simp_all [optLE]
  omega

/-- `optLE` is total. -/
theorem optLE_total (x y : Option Int) : (optLE x y || optLE y x) = true := by
  cases x <;> cases y <;> simp [optLE]
  omega

/-- The comparator's non-positive half is transitive. -/
theorem templateLE_trans (a b c : Template) (hab : templateLE a b = true)
    (hbc : templateLE b c = true) : templateLE a c = true :=
  optLE_trans _ _ _ hab hbc

/-- The comparator's non-positive half is total. -/
theorem templateLE_total (a b : Template) :
    (templateLE a b || templateLE b a) = true :=
  optLE_total _ _

/-- C6 (amended): the orderer is a stable ascending sort keyed by each
template's **first** date-range field's start instant (in property order) —
not by the earliest one.  Output is sorted by the comparator (hence every
template without a date-range start is placed after all dated templates), it
is a permutation of the input, any comparator-sorted sublist of the input —
in particular any tie group, and the undated group — keeps its relative
order, and ordering an already-ordered collection yields the identical
sequence. -/
theorem templates_sorted_stably_by_first_start (ts : List Template) :
    (sortTemplatesByStartTime ts).Pairwise (fun a b => templateLE a b = true)
    ∧ (sortTemplatesByStartTime ts).Perm ts
    ∧ (∀ c : List Template, c.Pairwise (fun a b => templateLE a b = true) →
        c.Sublist ts → c.Sublist (sortTemplatesByStartTime ts))
    ∧ (ts.Pairwise (fun a b => templateLE a b = true) → sortTemplatesByStartTime ts = ts) :=
  ⟨List.sorted_mergeSort templateLE_trans templateLE_total ts,
   List.mergeSort_perm ts templateLE,
   fun _ hc hsub => List.sublist_mergeSort templateLE_trans templateLE_total hc hsub,
   fun hsorted => List.mergeSort_of_sorted hsorted⟩

/-- Witness for `templates_sorted_stably_by_first_start`, on a two-template
collection: sortedness, permutation, stability of the `[B]` sublist, and
identity on an already-sorted collection. -/
theorem templates_sorted_stably_by_first_start_example :
    (sortTemplatesByStartTime
        [⟨"A", [("W1", some (.date (some ⟨some 432000000, none⟩))),
                ("W2", some (.date (some ⟨some 0, none⟩)))]⟩,
         ⟨"B", [("When", some (.date (some ⟨some 172800000, none⟩)))]⟩]).Pairwise
      (fun a b => templateLE a b = true)
    ∧ (sortTemplatesByStartTime
        [⟨"A", [("W1", some (.date (some ⟨some 432000000, none⟩))),
                ("W2", some (.date (some ⟨some 0, none⟩)))]⟩,
         ⟨"B", [("When", some (.date (some ⟨some 172800000, none⟩)))]⟩]).Perm
        [⟨"A", [("W1", some (.date (some ⟨some 432000000, none⟩))),
                ("W2", some (.date (some ⟨some 0, none⟩)))]⟩,
         ⟨"B", [("When", some (.date (some ⟨some 172800000, none⟩)))]⟩]
    ∧ [⟨"B", [("When", some (.date (some ⟨some 172800000, none⟩)))]⟩].Sublist
        (sortTemplatesByStartTime
          [⟨"A", [("W1", some (.date (some ⟨some 432000000, none⟩))),
                  ("W2", some (.date (some ⟨some 0, none⟩)))]⟩,
           ⟨"B", [("When", some (.date (some ⟨some 172800000, none⟩)))]⟩])
    ∧ sortTemplatesByStartTime
        [⟨"B", [("When", some (.date (some ⟨some 172800000, none⟩)))]⟩,
         ⟨"A", [("W1", some (.date (some ⟨some 432000000, none⟩))),
                ("W2", some (.date (some ⟨some 0, none⟩)))]⟩]
      = [⟨"B", [("When", some (.date (some ⟨some 172800000, none⟩)))]⟩,
         ⟨"A", [("W1", some (.date (some ⟨some 432000000, none⟩))),
                ("W2", some (.date (some ⟨some 0, none⟩)))]⟩] := by
  have H := templates_sorted_stably_by_first_start
    [⟨"A", [("W1", some (.date (some ⟨some 432000000, none⟩))),
            ("W2", some (.date (some ⟨some 0, none⟩)))]⟩,
     ⟨"B", [("When", some (.date (some ⟨some 172800000, none⟩)))]⟩]
  have H2 := templates_sorted_stably_by_first_start
    [⟨"B", [("When", some (.date (some ⟨some 172800000, none⟩)))]⟩,
     ⟨"A", [("W1", some (.date (some ⟨some 432000000, none⟩))),
            ("W2", some (.date (some ⟨some 0, none⟩)))]⟩]
  refine ⟨H.1, H.2.1, ?_, ?_⟩
  · refine H.2.2.1 _ (by simp) ?_
    exact List.Sublist.cons _ (List.Sublist.refl _)
  · refine H2.2.2.2 ?_
    simp only [List.pairwise_cons, List.mem_singleton, List.not_mem_nil, forall_eq,
      List.Pairwise.nil, and_true, false_implies, implies_true]
    decide

/-- C6 counterexample: template A's properties hold start instants at day 5
then day 0 (earliest: day 0), template B's single start is at day 2.  Sorting
by each template's earliest start would put A first, but the code keys on the
first date property (day 5 for A), so the orderer returns `[B, A]`, which is
not ascending by earliest start. -/
theorem sort_not_by_earliest_start :
    sortTemplatesByStartTime
        [⟨"A", [("W1", some (.date (some ⟨some 432000000, none⟩))),
                ("W2", some (.date (some ⟨some 0, none⟩)))]⟩,
         ⟨"B", [("When", some (.date (some ⟨some 172800000, none⟩)))]⟩]
      = [⟨"B", [("When", some (.date (some ⟨some 172800000, none⟩)))]⟩,
         ⟨"A", [("W1", some (.date (some ⟨some 432000000, none⟩))),
                ("W2", some (.date (some ⟨some 0, none⟩)))]⟩]
    ∧ specEarliestStart
        ⟨"A", [("W1", some (.date (some ⟨some 432000000, none⟩))),
               ("W2", some (.date (some ⟨some 0, none⟩)))]⟩ = some 0
    ∧ specEarliestStart
        ⟨"B", [("When", some (.date (some ⟨some 172800000, none⟩)))]⟩ = some 172800000
    ∧ ¬ (sortTemplatesByStartTime
          [⟨"A", [("W1", some (.date (some ⟨some 432000000, none⟩))),
                  ("W2", some (.date (some ⟨some 0, none⟩)))]⟩,
           ⟨"B", [("When", some (.date (some ⟨some 172800000, none⟩)))]⟩]).Pairwise
        (fun a b => specLE a b = true) := by
  have hsort : sortTemplatesByStartTime
      [⟨"A", [("W1", some (.date (some ⟨some 432000000, none⟩))),
              ("W2", some (.date (some ⟨some 0, none⟩)))]⟩,
       ⟨"B", [("When", some (.date (some ⟨some 172800000, none⟩)))]⟩]
      = [⟨"B", [("When", some (.date (some ⟨some 172800000, none⟩)))]⟩,
         ⟨"A", [("W1", some (.date (some ⟨some 432000000, none⟩))),
                ("W2", some (.date (some ⟨some 0, none⟩)))]⟩] := by
    simp [sortTemplatesByStartTime, List.mergeSort, List.splitInTwo, List.merge,
      templateLE, getTemplateStartTime, getStartFromProps, optLE]
  refine ⟨hsort, by decide, by decide, ?_⟩
  intro hP
  rw [hsort] at hP
  have hBA := (List.pairwise_cons.mp hP).1 _ (List.mem_cons_self _ _)
  exact absurd hBA (by decide)

/-- C5 (amended): the create loop is fail-fast, not best-effort.  When every
create succeeds it issues one create-record call per template, in order, and
reports `ok` with the count equal to the number attempted.  When the `k`-th
create fails, the error propagates immediately: exactly `k + 1` create calls
have been issued (the templates after the `k`-th are never attempted) and the
outcome is the propagated error, so no partial-success summary is produced. -/
theorem create_failure_halts_run (templates : List Template) (target ref : Int)
    (tz : String) (createOk : Nat → Bool) (idx : Nat) :
    ((∀ j, j < templates.length → createOk (idx + j) = true) →
      createTimeBlocksLoop templates target ref tz createOk idx
        = (templates.map (fun t =>
              .createPage (updatePropertiesForDate t.properties target ref tz).1),
           .ok templates.length))
    ∧ (∀ k, k < templates.length → createOk (idx + k) = false →
        (∀ j, j < k → createOk (idx + j) = true) →
        (createTimeBlocksLoop templates target ref tz createOk idx).2
            = .error "create failed"
        ∧ (createTimeBlocksLoop templates target ref tz createOk idx).1.length = k + 1) := by
  induction templates generalizing idx with
  | nil =>
    refine ⟨fun _ => rfl, ?_⟩
    intro k hk
    exact absurd hk (by simp)
  | cons t rest ih =>
    constructor
    · intro hall
      have h0 : createOk idx = true := by simpa using hall 0 (by simp)
      have hrest := (ih (idx + 1)).1 (by
        intro j hj
        have := hall (j + 1) (by simpa using hj)
        rwa [show idx + (j + 1) = idx + 1 + j by omega] at this)
      simp [createTimeBlocksLoop, h0, hrest]
    · intro k hk hkfail hprev
      cases k with
      | zero =>
        have h0 : createOk idx = false := by simpa using hkfail
        simp [createTimeBlocksLoop, h0]
      | succ k =>
        have h0 : createOk idx = true := by simpa using hprev 0 (by omega)
        have hrest := (ih (idx + 1)).2 k (by simpa using hk)
          (by rwa [show idx + 1 + k = idx + (k + 1) by omega])
          (by
            intro j hj
            have := hprev (j + 1) (by omega)
            rwa [show idx + (j + 1) = idx + 1 + j by omega] at this)
        simp only [createTimeBlocksLoop, h0, if_true]
        constructor
        · simp [hrest.1]
        · simp [hrest.2]

/-- Witness for `create_failure_halts_run`: two templates; with an always-ok
remote both are created and the summary reports 2; when the first create
fails, only one create call is made and the outcome is the error. -/
theorem create_failure_halts_run_example :
    createTimeBlocksLoop
        [⟨"T1", [("Name", some (.title ["a"]))]⟩, ⟨"T2", [("Name", some (.title ["b"]))]⟩]
        0 0 "UTC" (fun _ => true) 0
      = ([.createPage [("Name", .title ["a"])], .createPage [("Name", .title ["b"])]],
         .ok 2)
    ∧ (createTimeBlocksLoop
        [⟨"T1", [("Name", some (.title ["a"]))]⟩, ⟨"T2", [("Name", some (.title ["b"]))]⟩]
        0 0 "UTC" (fun i => decide (i ≠ 0)) 0).2 = .error "create failed"
    ∧ (createTimeBlocksLoop
        [⟨"T1", [("Name", some (.title ["a"]))]⟩, ⟨"T2", [("Name", some (.title ["b"]))]⟩]
        0 0 "UTC" (fun i => decide (i ≠ 0)) 0).1.length = 1 := by
  have H := (create_failure_halts_run
      [⟨"T1", [("Name", some (.title ["a"]))]⟩, ⟨"T2", [("Name", some (.title ["b"]))]⟩]
      0 0 "UTC" (fun _ => true) 0).1 (fun j _ => rfl)
  have H2 := (create_failure_halts_run
      [⟨"T1", [("Name", some (.title ["a"]))]⟩, ⟨"T2", [("Name", some (.title ["b"]))]⟩]
      0 0 "UTC" (fun i => decide (i ≠ 0)) 0).2 0 (by simp) rfl
      (fun j hj => absurd hj (by omega))
  refine ⟨?_, H2.1, H2.2⟩
  simpa [updatePropertiesForDate, updateEntry] using H

/-- C5 counterexample: a run over two templates whose first create is
rejected by the remote.  The claim predicts the second template is still
attempted and the run ends with a partial-success summary; instead the run
issues a single create call and propagates the error (no summary). -/
theorem create_failure_not_tolerated :
    runScheduledMode
        [⟨"T1", [("Name", some (.title ["a"]))]⟩, ⟨"T2", [("Name", some (.title ["b"]))]⟩]
        0 0 none [] "UTC" (fun i => decide (i ≠ 0))
      = ⟨[.createPage [("Name", .title ["a"])]], .error "create failed"⟩ := by
  have hsort : sortTemplatesByStartTime
      [⟨"T1", [("Name", some (.title ["a"]))]⟩, ⟨"T2", [("Name", some (.title ["b"]))]⟩]
      = [⟨"T1", [("Name", some (.title ["a"]))]⟩, ⟨"T2", [("Name", some (.title ["b"]))]⟩] :=
    List.mergeSort_of_sorted (by
      simp [List.pairwise_cons, templateLE, getTemplateStartTime, getStartFromProps, optLE])
  simp only [runScheduledMode, hsort]
  decide

/-- Every call issued by the create loop is a record-create call. -/
theorem createTimeBlocksLoop_all_createPage (templates : List Template)
    (target ref : Int) (tz : String) (createOk : Nat → Bool) :
    ∀ idx, ((createTimeBlocksLoop templates target ref tz createOk idx).1).all
      isCreatePage = true := by
  induction templates with
  | nil => intro idx; rfl
  | cons t rest ih =>
    intro idx
    by_cases h : createOk idx = true
    · simp [createTimeBlocksLoop, h, isCreatePage, ih (idx + 1)]
    · simp [createTimeBlocksLoop, h, isCreatePage]

/-- C8: when the surviving templates' Day values include at least one value
missing from the option list of the schema's located Day property, the run
issues the schema read followed by exactly one additive schema update —
whose option list is every existing option unchanged, in order, followed by
the missing values — and every call after it is a record-create call; in
particular the single update precedes every create. -/
theorem missing_day_options_added_once_before_creates
    (templates : List Template) (targetDate today : Int) (dayFilter : Option String)
    (schema : List (String × SchemaProp)) (tz : String) (createOk : Nat → Bool)
    (surviving : List Template)
    (hsurv : surviving = (match dayFilter with
        | some f => filterTemplatesByDay (sortTemplatesByStartTime templates) f
        | none => sortTemplatesByStartTime templates))
    (hne : surviving ≠ [])
    (dayPropertyName : String) (dayProperty : SchemaProp)
    (hfind : findDayProperty schema = some (dayPropertyName, dayProperty))
    (hmiss : (extractDayValues surviving).filter
        (fun v => !(v ∈ dayProperty.options.map (fun o => o.name))) ≠ []) :
    (runScheduledMode templates targetDate today dayFilter schema tz createOk).calls.take 2
      = [.getDatabaseSchema,
         .updateDatabaseSchema dayPropertyName
           (dayProperty.options
             ++ ((extractDayValues surviving).filter
                  (fun v => !(v ∈ dayProperty.options.map (fun o => o.name)))).map
                (fun n => SelectOption.mk "" n "default"))]
    ∧ (((runScheduledMode templates targetDate today dayFilter schema tz createOk).calls.drop
          2).all isCreatePage) = true := by
  have hTempl : templates.isEmpty = false := by
    cases templates with
    | nil =>
      exfalso
      apply hne
      rw [hsurv]
      cases dayFilter <;> simp [sortTemplatesByStartTime, filterTemplatesByDay]
    | cons t ts => rfl
  have hSurvEmpty : surviving.isEmpty = false := by
    cases hS : surviving with
    | nil => exact absurd hS hne
    | cons a l => rfl
  have hdayne : (extractDayValues surviving).isEmpty = false := by
    cases hD : extractDayValues surviving with
    | nil => rw [hD] at hmiss; simp at hmiss
    | cons a l => rfl
  have hmissEmpty : ((extractDayValues surviving).filter
      (fun v => !(v ∈ dayProperty.options.map (fun o => o.name)))).isEmpty = false := by
    cases hM : (extractDayValues surviving).filter
        (fun v => !(v ∈ dayProperty.options.map (fun o => o.name))) with
    | nil => exact absurd hM hmiss
    | cons a l => rfl
  have hens : ensureDayOptionsExist schema (extractDayValues surviving)
      = [.getDatabaseSchema,
         .updateDatabaseSchema dayPropertyName
           (dayProperty.options
             ++ ((extractDayValues surviving).filter
                  (fun v => !(v ∈ dayProperty.options.map (fun o => o.name)))).map
                (fun n => SelectOption.mk "" n "default"))] := by
    rw [ensureDayOptionsExist, if_neg (by rw [hdayne]; exact Bool.false_ne_true), hfind]
    simp only [hmissEmpty, Bool.false_eq_true, if_false]
  rw [runScheduledMode, if_neg (by rw [hTempl]; exact Bool.false_ne_true)]
  simp only [← hsurv]
  rw [if_neg (by
    rw [hSurvEmpty]
    simp)]
  rw [hens]
  exact ⟨rfl, createTimeBlocksLoop_all_createPage surviving targetDate
    (findReferenceDate templates today) tz createOk 0⟩

/-- Witness for `missing_day_options_added_once_before_creates`: one
surviving template using Day "Thursday", a destination schema whose Day
select only has "Monday": the run's first two calls are the schema read and
the additive update `[Monday, Thursday]`, and everything after is a create. -/
theorem missing_day_options_added_once_before_creates_example :
    (runScheduledMode
        [⟨"Thu", [("Day", some (.select (some ⟨"id1", "Thursday", "green"⟩))),
                  ("Name", some (.title ["x"]))]⟩]
        0 0 none [("Day", ⟨.select, [⟨"id0", "Monday", "red"⟩]⟩)] "UTC"
        (fun _ => true)).calls.take 2
      = [.getDatabaseSchema,
         .updateDatabaseSchema "Day"
           [⟨"id0", "Monday", "red"⟩, ⟨"", "Thursday", "default"⟩]]
    ∧ (((runScheduledMode
        [⟨"Thu", [("Day", some (.select (some ⟨"id1", "Thursday", "green"⟩))),
                  ("Name", some (.title ["x"]))]⟩]
        0 0 none [("Day", ⟨.select, [⟨"id0", "Monday", "red"⟩]⟩)] "UTC"
        (fun _ => true)).calls.drop 2).all isCreatePage) = true := by
  have H := missing_day_options_added_once_before_creates
    [⟨"Thu", [("Day", some (.select (some ⟨"id1", "Thursday", "green"⟩))),
              ("Name", some (.title ["x"]))]⟩]
    0 0 none [("Day", ⟨.select, [⟨"id0", "Monday", "red"⟩]⟩)] "UTC" (fun _ => true)
    [⟨"Thu", [("Day", some (.select (some ⟨"id1", "Thursday", "green"⟩))),
              ("Name", some (.title ["x"]))]⟩]
    (by simp [sortTemplatesByStartTime]) (by simp)
    "Day" ⟨.select, [⟨"id0", "Monday", "red"⟩]⟩ (by decide) (by decide)
  exact H

end NotionTimeBlocks
